import Mathlib

/-!
Verification development for the auto-mpeg pipeline.

Shallow embedding of the TypeScript sources: pure module logic becomes Lean
functions over List/String/Rat/Int; JS numbers holding times and durations are
modelled as rationals, pixel coordinates and scores as integers; fallible
module calls become Except values; wall-clock Date fields are dropped and
Date.now-based temporary file names are modelled by an environment of fresh
names.  Sources are referenced by their file and symbol.
-/

/-- Whitespace test for the JS regex class backslash-s restricted to the ASCII
whitespace characters that occur in this codebase. -/
def jsIsWs (c : Char) : Bool :=
  c = ' ' || c = '\t' || c = '\n' || c = '\r' || c = '\x0b' || c = '\x0c'

/-- Pieces of a JS String.split on a whitespace-run regex, over char lists.
The Bool flag records whether the previous character was part of a whitespace
run, so a run of consecutive whitespace characters acts as one separator, as
the regex does.  JS split keeps empty boundary pieces. -/
def jsSplitWsAux : List Char → List Char → Bool → List (List Char)
  | [], cur, _ => [cur.reverse]
  | c :: cs, cur, inWs =>
    if jsIsWs c then
      if inWs then jsSplitWsAux cs cur true
      else cur.reverse :: jsSplitWsAux cs [] true
    else jsSplitWsAux cs (c :: cur) false

/-- Model of JS text.split on a whitespace-run regex. -/
def jsSplitWhitespace (s : String) : List String :=
  (jsSplitWsAux s.toList [] false).map (fun cs => String.mk cs)

/-- Word count as computed by the sources: length of the whitespace split.
Note that JS split never returns an empty array, so this is at least 1. -/
def jsWordCount (s : String) : Nat :=
  (jsSplitWhitespace s).length

/-- Estimated narration duration in seconds at 150 words per minute,
from TTSModule.synthesizeSpeech (src/unnamed/part_007 lines 114-116). -/
def ttsDuration (text : String) : ℚ :=
  ((jsWordCount text : ℚ) / 150) * 60

/-- Section type union from src/src/types/modules.ts. -/
inductive SectionType
  | hook | introduction | mainContent | summary | conclusion | cta
deriving DecidableEq, Repr

/-- ScriptLine from src/src/types/modules.ts; startTime and endTime are filled
by the TTS module. -/
structure ScriptLine where
  id : String
  sectionId : String
  text : String
  order : Nat
  startTime : Option ℚ := none
  endTime : Option ℚ := none
  visualCue : Option String := none
deriving DecidableEq, Repr

/-- ScriptSection from src/src/types/modules.ts. -/
structure ScriptSection where
  id : String
  type : SectionType
  title : Option String := none
  lines : List ScriptLine
  order : Nat
deriving DecidableEq, Repr

/-- Script metadata from src/src/types/modules.ts (generatedAt Date dropped). -/
structure ScriptMetadata where
  wordCount : Nat
  sentenceCount : Nat
deriving DecidableEq, Repr

/-- ScriptGeneratorOutput from src/src/types/modules.ts. -/
structure ScriptGeneratorOutput where
  sections : List ScriptSection
  totalEstimatedDuration : ℚ
  metadata : ScriptMetadata
deriving DecidableEq, Repr

/-- AudioSegment from src/src/types/modules.ts. -/
structure AudioSegment where
  lineId : String
  filePath : String
  duration : ℚ
  startTime : ℚ
  endTime : ℚ
deriving DecidableEq, Repr

/-- TTSOutput from src/src/types/modules.ts. -/
structure TTSOutput where
  audioSegments : List AudioSegment
  masterAudioPath : String
  totalDuration : ℚ
  scriptWithTimestamps : ScriptGeneratorOutput
deriving DecidableEq, Repr

/-- TTSInput from src/src/types/modules.ts; the optional voice options are
dropped because synthesizeSpeech ignores them in the source. -/
structure TTSInput where
  script : ScriptGeneratorOutput
deriving DecidableEq, Repr

/-- Environment for the TTS module: the Date.now based temporary file name of
the k-th synthesized line and of the merged master audio file. -/
structure TTSEnv where
  tempPath : Nat → String
  masterAudioPath : String

/-- Inner loop of TTSModule.execute over the lines of one section
(src/unnamed/part_007 lines 33-51): synthesize each line, append an
AudioSegment starting where the previous one ended, and write the line
timestamps back into the script.  Returns the segments, the updated lines and
the advanced time accumulator. -/
def ttsLines (env : TTSEnv) : List ScriptLine → ℚ → Nat → List AudioSegment × List ScriptLine × ℚ
  | [], t, _ => ([], [], t)
  | l :: ls, t, k =>
    let d := ttsDuration l.text
    let seg : AudioSegment :=
      { lineId := l.id, filePath := env.tempPath k, duration := d,
        startTime := t, endTime := t + d }
    let rest := ttsLines env ls (t + d) (k + 1)
    (seg :: rest.1, { l with startTime := some t, endTime := some (t + d) } :: rest.2.1, rest.2.2)

/-- Outer loop of TTSModule.execute over the script sections
(src/unnamed/part_007 lines 32-52); the time accumulator runs across section
boundaries. -/
def ttsSections (env : TTSEnv) : List ScriptSection → ℚ → Nat → List AudioSegment × List ScriptSection × ℚ
  | [], t, _ => ([], [], t)
  | s :: ss, t, k =>
    let r1 := ttsLines env s.lines t k
    let r2 := ttsSections env ss r1.2.2 (k + s.lines.length)
    (r1.1 ++ r2.1, { s with lines := r1.2.1 } :: r2.2.1, r2.2.2)

/-- Body of TTSModule.execute after validation (src/unnamed/part_007 lines
28-79).  In the source the returned scriptWithTimestamps is the input script
object mutated in place; the model returns the updated value. -/
def ttsRun (env : TTSEnv) (script : ScriptGeneratorOutput) : TTSOutput :=
  let r := ttsSections env script.sections 0 0
  { audioSegments := r.1
    masterAudioPath := env.masterAudioPath
    totalDuration := r.2.2
    scriptWithTimestamps := { script with sections := r.2.1 } }

/-- ModuleType enum from src/src/types/common.ts. -/
inductive ModuleType
  | contentIntake | contentAnalyzer | planner | scriptGenerator | tts
  | subtitleGenerator | videoComposer | thumbnailGenerator | qualityReview
deriving DecidableEq, Repr

/-- ModuleError from src/src/types/common.ts; the wrapped original error is
kept as its message. -/
structure ModuleError where
  moduleType : ModuleType
  message : String
  originalError : Option String := none
deriving DecidableEq, Repr

/-- ModuleResult from src/src/types/common.ts (timestamp Date dropped). -/
structure ModuleResult (α : Type) where
  success : Bool
  data : Option α := none
  moduleType : ModuleType
deriving DecidableEq, Repr

/-- TTSModule.execute (src/unnamed/part_007 lines 24-94): validate rejects a
script with no sections; otherwise the segments and timestamps are computed
and wrapped in a successful ModuleResult.  A thrown error is wrapped into a
ModuleError of type tts. -/
def ttsExecute (env : TTSEnv) (input : TTSInput) : Except ModuleError (ModuleResult TTSOutput) :=
  if input.script.sections.length = 0 then
    Except.error
      { moduleType := ModuleType.tts
        message := "TTS 변환 실패: 변환할 스크립트가 비어있습니다."
        originalError := some "변환할 스크립트가 비어있습니다." }
  else
    Except.ok { success := true, data := some (ttsRun env input.script), moduleType := ModuleType.tts }

/-- Timeline shape of a segment list: the segments cover the interval from the
first argument to the last gaplessly, each with positive duration. -/
def SegsConsecutive : ℚ → List AudioSegment → ℚ → Prop
  | t, [], t2 => t2 = t
  | t, seg :: rest, t2 =>
    seg.startTime = t ∧ seg.endTime = t + seg.duration ∧ 0 < seg.duration ∧
      SegsConsecutive seg.endTime rest t2

-- ===== Quality review module (src/unnamed/part_005) =====

/-- Issue severity union from src/src/types/modules.ts. -/
inductive Severity
  | low | medium | high | critical
deriving DecidableEq, Repr

/-- Issue category union from src/src/types/modules.ts. -/
inductive IssueCategory
  | factualError | omission | exaggeration | toneMismatch | other
deriving DecidableEq, Repr

/-- QualityIssue from src/src/types/modules.ts. -/
structure QualityIssue where
  severity : Severity
  category : IssueCategory
  sectionId : Option String := none
  lineId : Option String := none
  description : String
  suggestion : Option String := none
deriving DecidableEq, Repr

/-- Per-severity penalty of QualityReviewModule.calculateQualityScore
(src/unnamed/part_005 lines 139-154). -/
def severityPenalty : Severity → ℤ
  | Severity.critical => 30
  | Severity.high => 20
  | Severity.medium => 10
  | Severity.low => 5

/-- QualityReviewModule.calculateQualityScore (src/unnamed/part_005 lines
136-157): start from 100, subtract the penalty of each issue in order, and
floor the final value at 0. -/
def calculateQualityScore (issues : List QualityIssue) : ℤ :=
  max 0 (issues.foldl (fun score issue => score - severityPenalty issue.severity) 100)

/-- Recommendation union from src/src/types/modules.ts. -/
inductive Recommendation
  | approve | revise | reject
deriving DecidableEq, Repr

/-- Recommendation thresholds of QualityReviewModule.reviewScript
(src/unnamed/part_005 lines 82-89). -/
def recommendationFor (score : ℤ) : Recommendation :=
  if 80 ≤ score then Recommendation.approve
  else if 60 ≤ score then Recommendation.revise
  else Recommendation.reject

/-- Insertion-ordered set of strings, modelling a JS Set built from an array:
duplicates are dropped, the first occurrence keeps its position. -/
def jsSetOf (l : List String) : List String :=
  l.foldl (fun acc w => if w ∈ acc then acc else acc ++ [w]) []

/-- QualityReviewModule.extractScriptText (src/unnamed/part_005 lines
126-134): concatenate every line text followed by a space. -/
def extractScriptText (script : ScriptGeneratorOutput) : String :=
  script.sections.foldl (fun acc sec => sec.lines.foldl (fun a l => a ++ l.text ++ " ") acc) ""

/-- QualityReviewModule.checkFactualAccuracy (src/unnamed/part_005 lines
103-124): words longer than 3 characters of the original must reappear in the
generated text at a rate above one half.  The JS float ratio is modelled as an
exact rational. -/
def checkFactualAccuracy (original generated : String) : Bool :=
  let originalWords := jsSetOf (jsSplitWhitespace original.toLower)
  let generatedWords := jsSetOf (jsSplitWhitespace generated.toLower)
  let important := originalWords.filter (fun w => 3 < w.length)
  let totalImportantWords := important.length
  let matchCount := (important.filter (fun w => w ∈ generatedWords)).length
  let matchRate : ℚ :=
    if 0 < totalImportantWords then (matchCount : ℚ) / (totalImportantWords : ℚ) else 0
  decide ((1 : ℚ) / 2 < matchRate)

/-- The single issue reviewScript can raise (src/unnamed/part_005 lines
69-76). -/
def factualIssue : QualityIssue :=
  { severity := Severity.high
    category := IssueCategory.factualError
    description := "원본과 생성된 스크립트 간의 사실 관계 불일치 가능성이 있습니다."
    suggestion := some "스크립트를 재검토하고 필요시 수정하세요." }

-- ===== Content analyzer module (src/unnamed/part_004) =====

/-- Content type enum from src/src/types/modules.ts. -/
inductive ContentType
  | informational | storytelling | tutorial | review | news | opinion
deriving DecidableEq, Repr

/-- Content tone enum from src/src/types/modules.ts. -/
inductive ContentTone
  | formal | casual | friendly | professional | enthusiastic | neutral
deriving DecidableEq, Repr

/-- Complexity union from src/src/types/modules.ts. -/
inductive Complexity
  | simple | moderate | complex
deriving DecidableEq, Repr

/-- One entry of ContentAnalyzerOutput.structure.sections. -/
structure AnalyzedSection where
  content : String
  startIndex : ℤ
  endIndex : ℤ
deriving DecidableEq, Repr

/-- ContentAnalyzerOutput from src/src/types/modules.ts; the nested structure
record is flattened into structureSections. -/
structure ContentAnalyzerOutput where
  contentType : ContentType
  tone : ContentTone
  structureSections : List AnalyzedSection
  keywords : List String
  coreMessage : String
  estimatedReadingTime : ℤ
  complexity : Complexity
deriving DecidableEq, Repr

/-- JS String.trim modelled on the ASCII whitespace characters. -/
def jsTrim (s : String) : String :=
  String.mk (((s.toList.dropWhile jsIsWs).reverse.dropWhile jsIsWs).reverse)

/-- Pieces of JS text.split on a two-or-more-newlines regex, over char lists.
The Nat argument counts newlines seen since the last other character: a run of
two or more acts as a separator, a single newline stays in the piece. -/
def splitDoubleNlAux : List Char → List Char → Nat → List String
  | [], cur, pending =>
    if 2 ≤ pending then [String.mk cur.reverse, ""]
    else [String.mk (List.replicate pending '\n' ++ cur).reverse]
  | c :: cs, cur, pending =>
    if c = '\n' then splitDoubleNlAux cs cur (pending + 1)
    else if 2 ≤ pending then String.mk cur.reverse :: splitDoubleNlAux cs [c] 0
    else splitDoubleNlAux cs (c :: (List.replicate pending '\n' ++ cur)) 0

/-- Model of JS text.split on a blank-line regex, used by analyzeStructure. -/
def splitDoubleNl (s : String) : List String :=
  splitDoubleNlAux s.toList [] 0

/-- JS String.indexOf on strings: first index at which the needle occurs, or
-1 when absent. -/
def jsIndexOf (hay needle : String) : ℤ :=
  match (List.range (hay.toList.length + 1)).find?
      (fun i => needle.toList.isPrefixOf (hay.toList.drop i)) with
  | some i => (i : ℤ)
  | none => -1

/-- ContentAnalyzerModule.analyzeStructure (src/unnamed/part_004 lines 71-87):
split into paragraphs on blank lines, drop blank paragraphs, and record each
paragraph with its index range in the original text. -/
def analyzeStructure (text : String) : List AnalyzedSection :=
  let paragraphs := (splitDoubleNl text).filter (fun p => 0 < (jsTrim p).length)
  paragraphs.map (fun content =>
    let startIndex := jsIndexOf text content
    { content := jsTrim content, startIndex := startIndex,
      endIndex := startIndex + (content.length : ℤ) })

/-- JS regex word character class: ASCII letters, digits and underscore. -/
def jsIsWordChar (c : Char) : Bool :=
  ('a' ≤ c && c ≤ 'z') || ('A' ≤ c && c ≤ 'Z') || ('0' ≤ c && c ≤ '9') || c = '_'

/-- Hangul syllable range used by the keyword-cleaning regex. -/
def isHangul (c : Char) : Bool :=
  '가' ≤ c && c ≤ '힣'

/-- The replace step of extractKeywords: every character that is not a word
character, whitespace or Hangul becomes a space. -/
def keywordClean (s : String) : String :=
  String.mk (s.toList.map (fun c => if jsIsWordChar c || jsIsWs c || isHangul c then c else ' '))

/-- Frequency table bump preserving first-insertion order, modelling the JS
frequency object of extractKeywords. -/
def bumpFreq : List (String × Nat) → String → List (String × Nat)
  | [], w => [(w, 1)]
  | (v, n) :: rest, w =>
    if v = w then (v, n + 1) :: rest else (v, n) :: bumpFreq rest w

/-- Stable insertion into a list sorted by strictly decreasing count: an entry
goes after existing entries with the same count, modelling the stable JS sort
with comparator on counts. -/
def insertByCount (p : String × Nat) : List (String × Nat) → List (String × Nat)
  | [] => [p]
  | q :: rest => if q.2 < p.2 then p :: q :: rest else q :: insertByCount p rest

/-- ContentAnalyzerModule.extractKeywords (src/unnamed/part_004 lines
89-110): lowercase, clean, split on whitespace, keep words longer than 2
characters, count frequencies, sort by frequency descending and take the top
ten words.  Insertion order stands in for JS object key order. -/
def extractKeywords (text : String) : List String :=
  let words := (jsSplitWhitespace (keywordClean text.toLower)).filter (fun w => 2 < w.length)
  let freq := words.foldl bumpFreq []
  let sorted := freq.foldl (fun acc p => insertByCount p acc) []
  (sorted.take 10).map (fun p => p.1)

/-- Pieces of JS text.split on a sentence-ending character class: each single
period, exclamation or question mark separates, empty pieces are kept. -/
def splitSentAux : List Char → List Char → List String
  | [], cur => [String.mk cur.reverse]
  | c :: cs, cur =>
    if c = '.' || c = '!' || c = '?' then String.mk cur.reverse :: splitSentAux cs []
    else splitSentAux cs (c :: cur)

/-- Sentences of a text as the analyzer sees them: split on sentence-ending
characters, drop pieces that are blank after trimming. -/
def sentencesOf (text : String) : List String :=
  (splitSentAux text.toList []).filter (fun s => 0 < (jsTrim s).length)

/-- ContentAnalyzerModule.extractCoreMessage (src/unnamed/part_004 lines
124-129): the first non-blank sentence, trimmed, with a fallback message. -/
def extractCoreMessage (text : String) : String :=
  match sentencesOf text with
  | [] => "핵심 메시지를 추출할 수 없습니다."
  | s :: _ => jsTrim s

/-- ASCII letter test for the English-word regex of calculateReadingTime. -/
def isAsciiAlpha (c : Char) : Bool :=
  ('a' ≤ c && c ≤ 'z') || ('A' ≤ c && c ≤ 'Z')

/-- Number of maximal ASCII-letter runs, i.e. the match count of a
one-or-more-letters regex. -/
def countAlphaRunsAux : List Char → Bool → Nat
  | [], _ => 0
  | c :: cs, inRun =>
    if isAsciiAlpha c then
      if inRun then countAlphaRunsAux cs true else 1 + countAlphaRunsAux cs true
    else countAlphaRunsAux cs false

/-- Match count of the English-word regex over a string. -/
def countAlphaRuns (s : String) : Nat :=
  countAlphaRunsAux s.toList false

/-- ContentAnalyzerModule.calculateReadingTime (src/unnamed/part_004 lines
131-140): Korean characters at 300 per minute plus English words at 200 per
minute, rounded up. -/
def calculateReadingTime (text : String) : ℤ :=
  let koreanChars := (text.toList.filter isHangul).length
  let englishWords := countAlphaRuns text
  Int.ceil ((koreanChars : ℚ) / 300 + (englishWords : ℚ) / 200)

/-- ContentAnalyzerModule.assessComplexity (src/unnamed/part_004 lines
142-149): average sentence length below 50 is simple, below 100 moderate,
otherwise complex.  A zero sentence count gives an infinite JS average, hence
complex. -/
def assessComplexity (text : String) : Complexity :=
  let n := (sentencesOf text).length
  if n = 0 then Complexity.complex
  else
    let avg : ℚ := (text.length : ℚ) / (n : ℚ)
    if avg < 50 then Complexity.simple
    else if avg < 100 then Complexity.moderate
    else Complexity.complex

/-- ContentAnalyzerModule.validate (src/unnamed/part_004 lines 59-69): reject
empty or blank text, then reject text shorter than 100 characters. -/
def contentAnalyzerValidate (text : String) : Except String Unit :=
  if text = "" || (jsTrim text).length = 0 then
    Except.error "분석할 텍스트가 비어있습니다."
  else if text.length < 100 then
    Except.error "텍스트가 너무 짧습니다. 최소 100자 이상이어야 합니다."
  else Except.ok ()

/-- Successful body of ContentAnalyzerModule.execute (src/unnamed/part_004
lines 26-42); tone and content type are constant in the source. -/
def contentAnalyzerRun (text : String) : ContentAnalyzerOutput :=
  { contentType := ContentType.informational
    tone := ContentTone.neutral
    structureSections := analyzeStructure text
    keywords := extractKeywords text
    coreMessage := extractCoreMessage text
    estimatedReadingTime := calculateReadingTime text
    complexity := assessComplexity text }

/-- ContentAnalyzerModule.execute (src/unnamed/part_004 lines 22-57): a
validation error is wrapped into a ModuleError of type contentAnalyzer,
otherwise the analysis result is returned in a successful ModuleResult. -/
def contentAnalyzerExecute (text : String) : Except ModuleError (ModuleResult ContentAnalyzerOutput) :=
  match contentAnalyzerValidate text with
  | Except.error msg =>
    Except.error
      { moduleType := ModuleType.contentAnalyzer
        message := "콘텐츠 분석 실패: " ++ msg
        originalError := some msg }
  | Except.ok _ =>
    Except.ok
      { success := true, data := some (contentAnalyzerRun text),
        moduleType := ModuleType.contentAnalyzer }

-- ===== Quality review continued and orchestrator data (src/unnamed/part_002, part_005) =====

/-- Source type union from src/src/types/modules.ts. -/
inductive SourceType
  | url | text
deriving DecidableEq, Repr

/-- ContentIntakeInput from src/src/types/modules.ts. -/
structure ContentIntakeInput where
  source : String
  sourceType : SourceType
deriving DecidableEq, Repr

/-- Intake metadata from src/src/types/modules.ts (extractedAt Date dropped). -/
structure IntakeMetadata where
  title : Option String := none
  author : Option String := none
  publishedDate : Option String := none
deriving DecidableEq, Repr

/-- ContentIntakeOutput from src/src/types/modules.ts. -/
structure ContentIntakeOutput where
  cleanedText : String
  originalSource : String
  sourceType : SourceType
  metadata : IntakeMetadata
deriving DecidableEq, Repr

/-- ContentAnalyzerInput from src/src/types/modules.ts; the free-form metadata
record is dropped because the analyzer never reads it. -/
structure ContentAnalyzerInput where
  text : String
deriving DecidableEq, Repr

/-- One entry of VideoPlan.structure from src/src/types/modules.ts. -/
structure PlanSection where
  sectionType : SectionType
  estimatedDuration : ℚ
  objectives : List String
deriving DecidableEq, Repr

/-- Pacing union from src/src/types/modules.ts. -/
inductive Pacing
  | slow | medium | fast
deriving DecidableEq, Repr

/-- Visual style union from src/src/types/modules.ts. -/
inductive VisualStyle
  | static | slideshow | dynamic
deriving DecidableEq, Repr

/-- VideoPlan from src/src/types/modules.ts; the structure field is renamed
planStructure because structure is a Lean keyword. -/
structure VideoPlan where
  targetDuration : ℚ
  planStructure : List PlanSection
  tone : ContentTone
  pacing : Pacing
  visualStyle : VisualStyle
deriving DecidableEq, Repr

/-- PlannerInput from src/src/types/modules.ts. -/
structure PlannerInput where
  contentAnalysis : ContentAnalyzerOutput
  originalText : String
  targetLength : Option ℚ := none
deriving DecidableEq, Repr

/-- ScriptGeneratorInput from src/src/types/modules.ts. -/
structure ScriptGeneratorInput where
  originalText : String
  plan : VideoPlan
  contentAnalysis : ContentAnalyzerOutput
deriving DecidableEq, Repr

/-- QualityReviewInput from src/src/types/modules.ts. -/
structure QualityReviewInput where
  originalText : String
  generatedScript : ScriptGeneratorOutput
  contentAnalysis : ContentAnalyzerOutput
deriving DecidableEq, Repr

/-- QualityReviewOutput from src/src/types/modules.ts (reviewedAt Date
dropped). -/
structure QualityReviewOutput where
  passed : Bool
  score : ℤ
  issues : List QualityIssue
  recommendation : Recommendation
deriving DecidableEq, Repr

/-- QualityReviewModule.reviewScript (src/unnamed/part_005 lines 52-101):
raise the factual issue when checkFactualAccuracy fails, compute the score,
derive the recommendation from the thresholds, and report passed when the
score is at least 70. -/
def reviewScript (input : QualityReviewInput) : QualityReviewOutput :=
  let issues :=
    if checkFactualAccuracy input.originalText (extractScriptText input.generatedScript) then []
    else [factualIssue]
  let score := calculateQualityScore issues
  { passed := decide (70 ≤ score)
    score := score
    issues := issues
    recommendation := recommendationFor score }

/-- Subtitle format union from src/src/types/modules.ts. -/
inductive SubtitleFormat
  | srt | vtt | ass
deriving DecidableEq, Repr

/-- SubtitleGeneratorInput from src/src/types/modules.ts. -/
structure SubtitleGeneratorInput where
  scriptWithTimestamps : ScriptGeneratorOutput
  format : SubtitleFormat
deriving DecidableEq, Repr

/-- SubtitleEntry from src/src/types/modules.ts. -/
structure SubtitleEntry where
  index : Nat
  startTime : String
  endTime : String
  text : String
deriving DecidableEq, Repr

/-- SubtitleGeneratorOutput from src/src/types/modules.ts. -/
structure SubtitleGeneratorOutput where
  subtitlePath : String
  format : SubtitleFormat
  entries : List SubtitleEntry
deriving DecidableEq, Repr

/-- Composer options from src/src/types/modules.ts. -/
structure VideoOptions where
  burnSubtitles : Bool
  resolution : String
  fps : Nat
deriving DecidableEq, Repr

/-- VideoComposerInput from src/src/types/modules.ts (visualAssets dropped,
the orchestrator never passes them). -/
structure VideoComposerInput where
  audioPath : String
  totalDuration : ℚ
  subtitlePath : Option String := none
  scriptWithTimestamps : ScriptGeneratorOutput
  options : VideoOptions
deriving DecidableEq, Repr

/-- VideoComposerOutput from src/src/types/modules.ts. -/
structure VideoComposerOutput where
  videoPath : String
  videoPathClean : Option String := none
  resolution : String
  duration : ℚ
  fileSize : ℤ
deriving DecidableEq, Repr

/-- ThumbnailGeneratorInput from src/src/types/modules.ts (style dropped, the
orchestrator never passes it). -/
structure ThumbnailGeneratorInput where
  title : String
  keywords : List String
  contentType : ContentType
deriving DecidableEq, Repr

/-- ThumbnailGeneratorOutput from src/src/types/modules.ts. -/
structure ThumbnailGeneratorOutput where
  thumbnailPath : String
  width : Nat
  height : Nat
deriving DecidableEq, Repr

/-- JobStatus enum from src/src/types/common.ts. -/
inductive JobStatus
  | pending | inProgress | completed | failed
deriving DecidableEq, Repr

/-- Output paths of OutputPackage from src/src/types/modules.ts. -/
structure OutputPaths where
  video : String
  videoClean : Option String := none
  subtitles : String
  audio : String
  script : String
  thumbnail : String
  metadata : String
deriving DecidableEq, Repr

/-- OutputPackage from src/src/types/modules.ts; the metadata record is
flattened and its Date and wall-clock processing time are dropped. -/
structure OutputPackage where
  jobId : String
  paths : OutputPaths
  originalSource : String
  title : Option String := none
  duration : ℚ
deriving DecidableEq, Repr

/-- A raised JS error in the orchestrator run: either a plain Error with a
message, or a ModuleError thrown by a module (src/src/types/common.ts lines
66-75).  These are the only error kinds the sources define. -/
inductive ThrownError
  | plain (message : String)
  | moduleThrow (e : ModuleError)
deriving DecidableEq, Repr

/-- What one module call can do, seen from the orchestrator: throw a
ModuleError, or return a ModuleResult. -/
inductive StageOutcome (α : Type)
  | threw (e : ModuleError)
  | returned (r : ModuleResult α)

/-- The orchestrator guard after each module call (for example
src/unnamed/part_002 lines 93-96): a thrown ModuleError propagates; a result
that is unsuccessful or has no data raises a plain Error with the fixed
stage-failure message; otherwise the data is passed on. -/
def runStage {α : Type} (o : StageOutcome α) (failMsg : String) : Except ThrownError α :=
  match o with
  | StageOutcome.threw e => Except.error (ThrownError.moduleThrow e)
  | StageOutcome.returned r =>
    match r.success, r.data with
    | true, some a => Except.ok a
    | _, _ => Except.error (ThrownError.plain failMsg)

/-- The modules as the orchestrator sees them (the class fields of
VideoOrchestrator, src/unnamed/part_002 lines 36-45): each is a function from
its input to a returned-or-thrown outcome. -/
structure OrchestratorEnv where
  contentIntake : ContentIntakeInput → StageOutcome ContentIntakeOutput
  contentAnalyzer : ContentAnalyzerInput → StageOutcome ContentAnalyzerOutput
  planner : PlannerInput → StageOutcome VideoPlan
  scriptGenerator : ScriptGeneratorInput → StageOutcome ScriptGeneratorOutput
  qualityReview : QualityReviewInput → StageOutcome QualityReviewOutput
  tts : TTSInput → StageOutcome TTSOutput
  subtitleGenerator : SubtitleGeneratorInput → StageOutcome SubtitleGeneratorOutput
  videoComposer : VideoComposerInput → StageOutcome VideoComposerOutput
  thumbnailGenerator : ThumbnailGeneratorInput → StageOutcome ThumbnailGeneratorOutput

/-- OrchestratorConfig from src/unnamed/part_002 lines 27-31. -/
structure OrchestratorConfig where
  outputDir : String
  qualityCheckEnabled : Bool
  targetVideoLength : Option ℚ := none

/-- The reject check of the quality gate (src/unnamed/part_002 lines
149-153): a reject recommendation throws a plain Error carrying the score;
any other recommendation lets the pipeline continue. -/
def qualityGateCheck (review : QualityReviewOutput) : Except ThrownError Unit :=
  if review.recommendation = Recommendation.reject then
    Except.error (ThrownError.plain
      ("품질 검토 실패: 점수가 너무 낮습니다 (" ++ toString review.score ++ "/100)"))
  else Except.ok ()

/-- The stage outputs collected for packaging (src/unnamed/part_002 lines
219-229); script is the timestamped script returned by the TTS stage. -/
structure CollectedData where
  intake : ContentIntakeOutput
  analysis : ContentAnalyzerOutput
  script : ScriptGeneratorOutput
  video : VideoComposerOutput
  subtitle : SubtitleGeneratorOutput
  thumbnail : ThumbnailGeneratorOutput
  audio : TTSOutput

/-- Stages 6 to 9 of VideoOrchestrator.execute (src/unnamed/part_002 lines
166-231): TTS, subtitles, video composition, thumbnail, then the collected
data for packaging. -/
def ttsOnward (env : OrchestratorEnv) (intake : ContentIntakeOutput)
    (analysis : ContentAnalyzerOutput) (script : ScriptGeneratorOutput) :
    Except ThrownError CollectedData := do
  let tts ← runStage (env.tts { script := script }) "TTS 변환 실패"
  let subtitle ← runStage
    (env.subtitleGenerator { scriptWithTimestamps := tts.scriptWithTimestamps,
                             format := SubtitleFormat.srt }) "자막 생성 실패"
  let video ← runStage
    (env.videoComposer
      { audioPath := tts.masterAudioPath
        totalDuration := tts.totalDuration
        subtitlePath := some subtitle.subtitlePath
        scriptWithTimestamps := tts.scriptWithTimestamps
        options := { burnSubtitles := true, resolution := "1920x1080", fps := 30 } }) "영상 합성 실패"
  let thumbnail ← runStage
    (env.thumbnailGenerator
      { title := intake.metadata.title.getD "제목 없음"
        keywords := analysis.keywords
        contentType := analysis.contentType }) "썸네일 생성 실패"
  pure { intake := intake, analysis := analysis, script := tts.scriptWithTimestamps,
         video := video, subtitle := subtitle, thumbnail := thumbnail, audio := tts }

/-- Stages 1 to 9 of VideoOrchestrator.execute (src/unnamed/part_002 lines
91-231): intake, analysis, planning, script generation, the optional quality
gate, then the TTS-onward stages.  Any stage failure short-circuits, exactly
as a thrown JS error leaves the try block. -/
def stagesPhase (env : OrchestratorEnv) (cfg : OrchestratorConfig)
    (input : ContentIntakeInput) : Except ThrownError CollectedData := do
  let intake ← runStage (env.contentIntake input) "콘텐츠 인입 실패"
  let analysis ← runStage (env.contentAnalyzer { text := intake.cleanedText }) "콘텐츠 분석 실패"
  let plan ← runStage
    (env.planner { contentAnalysis := analysis, originalText := intake.cleanedText,
                   targetLength := cfg.targetVideoLength }) "플래닝 실패"
  let script ← runStage
    (env.scriptGenerator { originalText := intake.cleanedText, plan := plan,
                           contentAnalysis := analysis }) "스크립트 생성 실패"
  if cfg.qualityCheckEnabled then
    let review ← runStage
      (env.qualityReview { originalText := intake.cleanedText, generatedScript := script,
                           contentAnalysis := analysis }) "품질 검토 실패"
    match qualityGateCheck review with
    | Except.error e => Except.error e
    | Except.ok _ => ttsOnward env intake analysis script
  else
    ttsOnward env intake analysis script

/-- VideoOrchestrator.packageOutputs (src/unnamed/part_002 lines 265-329):
fixed file names inside the job directory and the summary package.  The file
copies and JSON writes are I/O and are not modelled beyond the paths. -/
def packageOutputs (outputPath : String) (jobId : String) (results : CollectedData) : OutputPackage :=
  { jobId := jobId
    paths :=
      { video := outputPath ++ "/final_video.mp4"
        videoClean := results.video.videoPathClean.map (fun _ => outputPath ++ "/final_video_clean.mp4")
        subtitles := outputPath ++ "/video_subtitles.srt"
        audio := outputPath ++ "/audio_master.wav"
        script := outputPath ++ "/script.json"
        thumbnail := outputPath ++ "/thumbnail_base.png"
        metadata := outputPath ++ "/metadata.json" }
    originalSource := results.intake.originalSource
    title := results.intake.metadata.title
    duration := results.video.duration }

/-- Observable result of one VideoOrchestrator.execute run: the final job
status, whether packageOutputs was invoked, and the value returned or the
error rethrown to the caller. -/
structure ExecuteResult where
  finalStatus : JobStatus
  packagingInvoked : Bool
  outcome : Except ThrownError OutputPackage

/-- VideoOrchestrator.execute (src/unnamed/part_002 lines 69-260): run the
stages; on any thrown error the catch block sets the job status to failed,
packaging never runs, and the error is rethrown; on success packageOutputs
runs and the status becomes completed. -/
def orchestratorExecute (env : OrchestratorEnv) (cfg : OrchestratorConfig)
    (input : ContentIntakeInput) (jobId : String) : ExecuteResult :=
  let outputPath := cfg.outputDir ++ "/" ++ jobId
  match stagesPhase env cfg input with
  | Except.error e =>
    { finalStatus := JobStatus.failed, packagingInvoked := false, outcome := Except.error e }
  | Except.ok d =>
    { finalStatus := JobStatus.completed, packagingInvoked := true,
      outcome := Except.ok (packageOutputs outputPath jobId d) }

-- ===== AlignmentEngine (spec section 4.2; no implementation under src, the
-- overlay planner exists only as a description in src/IMPROVEMENTS.md) =====

/-- Modelled from the spec: the confidence flag of an OverlayCue (exact when
the timing came from a direct timestamp match, interpolated otherwise). -/
inductive Confidence
  | exact | interpolated
deriving DecidableEq, Repr

/-- Modelled from the spec: the semantic role of a slide element. -/
inductive ElementRole
  | title | body | textbox | picture | other
deriving DecidableEq, Repr

/-- Modelled from the spec: SlideElement with its bounding box in output pixel
space; produced by the external parser, read-only to the core. -/
structure SlideElement where
  slideIndex : Nat
  role : ElementRole
  text : String
  x : ℤ
  y : ℤ
  width : ℤ
  height : ℤ
deriving DecidableEq, Repr

/-- Modelled from the spec: WordTimestamp with start and end seconds relative
to the owning utterance segment.  The end field is named stop because end is a
Lean keyword. -/
structure WordTimestamp where
  word : String
  start : ℚ
  stop : ℚ
deriving DecidableEq, Repr

/-- Modelled from the spec: OverlayCue with bounding box, absolute start and
end seconds in the master timeline (the end field is named stop), associated
text and confidence flag. -/
structure OverlayCue where
  x : ℤ
  y : ℤ
  width : ℤ
  height : ℤ
  start : ℚ
  stop : ℚ
  text : String
  confidence : Confidence
deriving DecidableEq, Repr

/-- Lowercase of a string computed characterwise over the char list, used for
the case-insensitive matches of the alignment engine. -/
def lowerStr (s : String) : String :=
  String.mk (s.toList.map Char.toLower)

/-- Characters that belong to a word token for the boundary match: letters,
digits, Hangul syllables. -/
def isTokenChar (c : Char) : Bool :=
  c.isAlphanum || isHangul c

/-- Maximal token-character runs of a string, giving its word tokens. -/
def tokensAux : List Char → List Char → List String
  | [], cur => if cur.isEmpty then [] else [String.mk cur.reverse]
  | c :: cs, cur =>
    if isTokenChar c then tokensAux cs (c :: cur)
    else if cur.isEmpty then tokensAux cs []
    else String.mk cur.reverse :: tokensAux cs []

/-- Word tokens of a string. -/
def tokensOf (s : String) : List String :=
  tokensAux s.toList []

/-- Modelled from the spec: case-insensitive, punctuation-stripped form of a
word used for the temporal token match. -/
def normalizeWord (s : String) : String :=
  lowerStr (String.mk (s.toList.filter isTokenChar))

/-- Modelled from the spec: a slide element matches a keyword when its text
contains the keyword as a case-insensitive token with word boundaries, not as
a mere substring. -/
def elementMatchesKeyword (e : SlideElement) (kw : String) : Bool :=
  (tokensOf e.text).any (fun t => lowerStr t = lowerStr kw)

/-- Bounding-box area of a slide element. -/
def elementArea (e : SlideElement) : ℤ :=
  e.width * e.height

/-- Modelled from the spec: the tie-break order between matching elements,
smallest area first, then smallest y (topmost), then smallest x (leftmost). -/
def betterElement (a b : SlideElement) : Bool :=
  elementArea a < elementArea b ||
    (elementArea a = elementArea b &&
      (a.y < b.y || (a.y = b.y && a.x < b.x)))

/-- First strictly-best element of a candidate list under the tie-break
order; deterministic because ties keep the earlier candidate. -/
def pickElement (cands : List SlideElement) : Option SlideElement :=
  cands.foldl
    (fun best e =>
      match best with
      | none => some e
      | some b => if betterElement e b then some e else some b)
    none

/-- Modelled from the spec: spatial resolution scans the elements of the
slide of the keyword line and picks the best word-boundary match, or nothing. -/
def spatialResolve (elements : List SlideElement) (slide : Nat) (kw : String) :
    Option SlideElement :=
  pickElement (elements.filter (fun e => e.slideIndex = slide && elementMatchesKeyword e kw))

/-- Modelled from the spec: scan the word timestamps of the slide from the
monotonic cursor for the next exact (case-insensitive, punctuation-stripped)
occurrence of the keyword; return its position and timestamp. -/
def findFromCursor (ts : List WordTimestamp) (cursor : Nat) (kw : String) :
    Option (Nat × WordTimestamp) :=
  match (ts.drop cursor).findIdx? (fun w => normalizeWord w.word = normalizeWord kw) with
  | some i =>
    match (ts.drop cursor).get? i with
    | some w => some (cursor + i, w)
    | none => none
  | none => none

/-- Modelled from the spec: the per-line alignment input, with its
slide, its cumulative start offset in the master timeline taken from the
Timeline, its utterance duration, its words and its candidate keywords. -/
structure AlignLine where
  slideIndex : Nat
  cumulativeStart : ℚ
  segmentDuration : ℚ
  words : List String
  keywords : List String
deriving DecidableEq, Repr

/-- Output frame pixel bounds for box clamping. -/
structure FrameBounds where
  width : ℤ
  height : ℤ
deriving DecidableEq, Repr

/-- Modelled from the spec: box coordinates clamped to the pixel bounds of
the output frame. -/
def clampBox (fb : FrameBounds) (x y w h : ℤ) : ℤ × ℤ × ℤ × ℤ :=
  let x2 := max 0 (min x fb.width)
  let y2 := max 0 (min y fb.height)
  (x2, y2, max 0 (min w (fb.width - x2)), max 0 (min h (fb.height - y2)))

/-- Modelled from the spec: interpolated window when no exact timestamp match
exists, relative to the segment start: start at (wordIndex / totalWords) of
the segment duration, end one average word duration later. -/
def interpolateWindow (line : AlignLine) (kw : String) : ℚ × ℚ :=
  let totalWords := line.words.length
  if totalWords = 0 then (0, 0)
  else
    let wordIndex := (line.words.findIdx? (fun w => normalizeWord w = normalizeWord kw)).getD 0
    let start := ((wordIndex : ℚ) / (totalWords : ℚ)) * line.segmentDuration
    (start, start + line.segmentDuration / (totalWords : ℚ))

/-- Modelled from the spec: resolve one keyword of a line into at most one
cue.  No element match emits no cue (never fabricate a location); an exact
timestamp match advances the monotonic cursor of the slide past the consumed
occurrence and is marked exact; otherwise the window is interpolated.  The box
is taken from the resolved element, clamped; the window is shifted by its
cumulative start. -/
def resolveKeyword (fb : FrameBounds) (elements : List SlideElement)
    (timestamps : Nat → List WordTimestamp) (line : AlignLine)
    (cursors : Nat → Nat) (kw : String) : Option OverlayCue × (Nat → Nat) :=
  match spatialResolve elements line.slideIndex kw with
  | none => (none, cursors)
  | some el =>
    let ts := timestamps line.slideIndex
    let found := findFromCursor ts (cursors line.slideIndex) kw
    let windowConf :=
      match found with
      | some iw => ((iw.2.start, iw.2.stop), Confidence.exact)
      | none => (interpolateWindow line kw, Confidence.interpolated)
    let cursors2 :=
      match found with
      | some iw => fun n => if n = line.slideIndex then iw.1 + 1 else cursors n
      | none => cursors
    let b := clampBox fb el.x el.y el.width el.height
    (some { x := b.1, y := b.2.1, width := b.2.2.1, height := b.2.2.2,
            start := line.cumulativeStart + windowConf.1.1,
            stop := line.cumulativeStart + windowConf.1.2,
            text := kw, confidence := windowConf.2 },
     cursors2)

/-- Modelled from the spec: resolve the keywords of one line in order,
threading the per-slide cursors. -/
def resolveLine (fb : FrameBounds) (elements : List SlideElement)
    (timestamps : Nat → List WordTimestamp) (line : AlignLine)
    (cursors : Nat → Nat) : List OverlayCue × (Nat → Nat) :=
  line.keywords.foldl
    (fun acc kw =>
      let r := resolveKeyword fb elements timestamps line acc.2 kw
      (acc.1 ++ r.1.toList, r.2))
    ([], cursors)

/-- Modelled from the spec: the AlignmentEngine resolve contract, processing
lines in order with all per-slide cursors starting at zero and collecting the
cues in order. -/
def resolve (fb : FrameBounds) (lines : List AlignLine)
    (elements : List SlideElement) (timestamps : Nat → List WordTimestamp) :
    List OverlayCue :=
  (lines.foldl
    (fun acc line =>
      let r := resolveLine fb elements timestamps line acc.2
      (acc.1 ++ r.1, r.2))
    (([] : List OverlayCue), fun _ => 0)).1

-- ===== Concrete fixtures for witnesses and counterexamples =====

/-- Fresh-name environment standing in for the Date.now temp paths. -/
def ttsEnvC : TTSEnv :=
  { tempPath := fun n => "outputs/temp/audio_" ++ toString n ++ ".wav"
    masterAudioPath := "outputs/temp/master_audio_0.wav" }

/-- A two-word script line without timestamps, as script generation emits. -/
def lineC1 : ScriptLine :=
  { id := "l1", sectionId := "s1", text := "hello world", order := 0 }

/-- A four-word script line without timestamps. -/
def lineC2 : ScriptLine :=
  { id := "l2", sectionId := "s1", text := "plasma physics is fun", order := 1 }

/-- A one-section script holding the two lines. -/
def sectionC : ScriptSection :=
  { id := "s1", type := SectionType.hook, lines := [lineC1, lineC2], order := 0 }

/-- A concrete ScriptGeneratorOutput. -/
def scriptC : ScriptGeneratorOutput :=
  { sections := [sectionC], totalEstimatedDuration := 12/5,
    metadata := { wordCount := 6, sentenceCount := 2 } }

/-- The TTS input holding the concrete script. -/
def ttsInputC : TTSInput :=
  { script := scriptC }

/-- A successful stage outcome with the given data. -/
def okOutcome {α : Type} (mt : ModuleType) (a : α) : StageOutcome α :=
  StageOutcome.returned { success := true, data := some a, moduleType := mt }

/-- An unsuccessful stage outcome without data. -/
def failOutcome {α : Type} (mt : ModuleType) : StageOutcome α :=
  StageOutcome.returned { success := false, data := none, moduleType := mt }

/-- Concrete intake output. -/
def intakeOutC : ContentIntakeOutput :=
  { cleanedText := "플라즈마는 물질의 네 번째 상태입니다.", originalSource := "블로그 텍스트",
    sourceType := SourceType.text, metadata := { title := some "플라즈마" } }

/-- Concrete analysis output. -/
def analysisOutC : ContentAnalyzerOutput :=
  { contentType := ContentType.informational, tone := ContentTone.neutral,
    structureSections := [], keywords := ["플라즈마"],
    coreMessage := "플라즈마는 물질의 네 번째 상태입니다", estimatedReadingTime := 1,
    complexity := Complexity.simple }

/-- Concrete video plan. -/
def planOutC : VideoPlan :=
  { targetDuration := 60, planStructure := [], tone := ContentTone.neutral,
    pacing := Pacing.medium, visualStyle := VisualStyle.static }

/-- A reject review verdict with score 50. -/
def reviewRejectC : QualityReviewOutput :=
  { passed := false, score := 50, issues := [], recommendation := Recommendation.reject }

/-- An approve review verdict with score 100. -/
def reviewApproveC : QualityReviewOutput :=
  { passed := true, score := 100, issues := [], recommendation := Recommendation.approve }

/-- A revise review verdict with score 70. -/
def reviewReviseC : QualityReviewOutput :=
  { passed := true, score := 70, issues := [], recommendation := Recommendation.revise }

/-- Concrete TTS output. -/
def ttsOutC : TTSOutput :=
  ttsRun ttsEnvC scriptC

/-- Concrete subtitle output. -/
def subtitleOutC : SubtitleGeneratorOutput :=
  { subtitlePath := "outputs/temp/subtitles_0.srt", format := SubtitleFormat.srt, entries := [] }

/-- Concrete video output. -/
def videoOutC : VideoComposerOutput :=
  { videoPath := "outputs/temp/video_0.mp4", resolution := "1920x1080",
    duration := 12/5, fileSize := 1000000 }

/-- Concrete thumbnail output. -/
def thumbOutC : ThumbnailGeneratorOutput :=
  { thumbnailPath := "outputs/temp/thumb_0.png", width := 1280, height := 720 }

/-- Environment where every stage succeeds but the review verdict is reject. -/
def envRejectC : OrchestratorEnv :=
  { contentIntake := fun _ => okOutcome ModuleType.contentIntake intakeOutC
    contentAnalyzer := fun _ => okOutcome ModuleType.contentAnalyzer analysisOutC
    planner := fun _ => okOutcome ModuleType.planner planOutC
    scriptGenerator := fun _ => okOutcome ModuleType.scriptGenerator scriptC
    qualityReview := fun _ => okOutcome ModuleType.qualityReview reviewRejectC
    tts := fun _ => okOutcome ModuleType.tts ttsOutC
    subtitleGenerator := fun _ => okOutcome ModuleType.subtitleGenerator subtitleOutC
    videoComposer := fun _ => okOutcome ModuleType.videoComposer videoOutC
    thumbnailGenerator := fun _ => okOutcome ModuleType.thumbnailGenerator thumbOutC }

/-- Environment where the review approves but the TTS stage result is
unsuccessful. -/
def envTTSFailC : OrchestratorEnv :=
  { envRejectC with
    qualityReview := fun _ => okOutcome ModuleType.qualityReview reviewApproveC
    tts := fun _ => failOutcome ModuleType.tts }

/-- A ModuleError thrown by the intake module. -/
def intakeErrC : ModuleError :=
  { moduleType := ModuleType.contentIntake, message := "콘텐츠 인입 실패: 소스가 비어있습니다." }

/-- Environment where the intake module throws. -/
def envIntakeThrowC : OrchestratorEnv :=
  { envRejectC with contentIntake := fun _ => StageOutcome.threw intakeErrC }

/-- Concrete orchestrator config with the quality gate enabled. -/
def cfgC : OrchestratorConfig :=
  { outputDir := "outputs", qualityCheckEnabled := true }

/-- Concrete pipeline input. -/
def inputC : ContentIntakeInput :=
  { source := "블로그 텍스트", sourceType := SourceType.text }

/-- The slide element of the alignment-exactness scenario of the spec. -/
def plasmaElement : SlideElement :=
  { slideIndex := 0, role := ElementRole.textbox, text := "Plasma",
    x := 100, y := 50, width := 800, height := 150 }

/-- The word timestamps of the alignment-exactness scenario of the spec. -/
def plasmaTimestamps : Nat → List WordTimestamp :=
  fun n => if n = 0 then [{ word := "Plasma", start := 16/5, stop := 19/5 }] else []

/-- The alignment line of the alignment-exactness scenario of the spec, with a
parametric cumulative start offset. -/
def plasmaLine (off : ℚ) : AlignLine :=
  { slideIndex := 0, cumulativeStart := off, segmentDuration := 5,
    words := ["Plasma"], keywords := ["Plasma"] }

/-- A script line with its TTS time fields cleared; two lines agree on this
exactly when they differ at most in startTime and endTime. -/
def scriptLineClearTimes (l : ScriptLine) : ScriptLine :=
  { l with startTime := none, endTime := none }

/-- A script section with the time fields of all lines cleared. -/
def sectionClearTimes (sec : ScriptSection) : ScriptSection :=
  { sec with lines := sec.lines.map scriptLineClearTimes }

/-- A script with the time fields of all lines cleared. -/
def scriptClearTimes (s : ScriptGeneratorOutput) : ScriptGeneratorOutput :=
  { s with sections := s.sections.map sectionClearTimes }

-- ===== Theorems =====

/-- Running subtraction over a list equals subtracting the sum. -/
theorem foldl_sub_eq (pen : QualityIssue → ℤ) (issues : List QualityIssue) : ∀ s : ℤ,
    issues.foldl (fun sc i => sc - pen i) s = s - (issues.map pen).sum := by
  induction issues with
  | nil => intro s; simp
  | cons a l ih => intro s; simp only [List.foldl_cons, List.map_cons, List.sum_cons, ih]; ring

/-- Every severity penalty is positive. -/
theorem severityPenalty_pos (sev : Severity) : 0 < severityPenalty sev := by
  cases sev <;> decide

/-- Penalty sums are nonnegative. -/
theorem penaltySum_nonneg (L : List QualityIssue) :
    0 ≤ (L.map (fun i => severityPenalty i.severity)).sum := by
  induction L with
  | nil => simp
  | cons a l ih =>
    simp only [List.map_cons, List.sum_cons]
    have h := severityPenalty_pos a.severity
    omega

/-- C3: for every list of QualityIssue values, the quality score equals 100
minus the sum of the per-issue penalties (critical 30, high 20, medium 10,
low 5), floored at 0. -/
theorem quality_score_eq_penalty_sum (issues : List QualityIssue) :
    calculateQualityScore issues =
      max 0 (100 - (issues.map (fun i => severityPenalty i.severity)).sum) := by
  unfold calculateQualityScore
  rw [foldl_sub_eq]

/-- C4: for every quality score s, the recommendation is approve iff s is at
least 80, revise iff s is at least 60 and below 80, and reject iff s is below
60. -/
theorem recommendation_thresholds (s : ℤ) :
    (recommendationFor s = Recommendation.approve ↔ 80 ≤ s) ∧
    (recommendationFor s = Recommendation.revise ↔ 60 ≤ s ∧ s < 80) ∧
    (recommendationFor s = Recommendation.reject ↔ s < 60) := by
  unfold recommendationFor
  split_ifs with h1 h2
  · exact ⟨⟨fun _ => h1, fun _ => rfl⟩, by simp; omega, by simp; omega⟩
  · exact ⟨by simp; omega, ⟨fun _ => ⟨h2, by omega⟩, fun _ => rfl⟩, by simp; omega⟩
  · exact ⟨by simp; omega, by simp; omega, ⟨fun _ => by omega, fun _ => rfl⟩⟩

/-- C5: appending any issue never increases the quality score, and the score
always lies within 0 and 100. -/
theorem quality_score_monotone_and_bounded :
    (∀ (L : List QualityIssue) (x : QualityIssue),
        calculateQualityScore (L ++ [x]) ≤ calculateQualityScore L) ∧
    (∀ L : List QualityIssue,
        0 ≤ calculateQualityScore L ∧ calculateQualityScore L ≤ 100) := by
  constructor
  · intro L x
    unfold calculateQualityScore
    rw [foldl_sub_eq, foldl_sub_eq]
    have hx := severityPenalty_pos x.severity
    have h1 : 100 - ((L ++ [x]).map (fun i => severityPenalty i.severity)).sum ≤
        100 - (L.map (fun i => severityPenalty i.severity)).sum := by
      simp only [List.map_append, List.sum_append, List.map_cons, List.map_nil,
        List.sum_cons, List.sum_nil]
      omega
    exact max_le_max le_rfl h1
  · intro L
    unfold calculateQualityScore
    rw [foldl_sub_eq]
    constructor
    · exact le_max_left 0 _
    · have h := penaltySum_nonneg L
      exact max_le (by norm_num) (by omega)

/-- C10: a QualityReviewOutput produced by reviewScript has passed true
exactly when its score is at least 70; this threshold differs from both the
approve threshold 80 and the reject threshold 60. -/
theorem review_passed_iff_score_ge_70 (input : QualityReviewInput) :
    ((reviewScript input).passed = true) ↔ 70 ≤ (reviewScript input).score := by
  unfold reviewScript
  simp [decide_eq_true_iff]

/-- A string of length zero is the empty string. -/
theorem string_length_zero_eq_empty (s : String) (h : s.length = 0) : s = "" := by
  cases s with
  | mk data =>
    cases data with
    | nil => rfl
    | cons c cs => simp [String.length] at h

/-- C9: the content-analysis stage rejects any input whose trimmed text is
non-empty but whose length is below 100 characters: execute returns the
wrapped minimum-length ModuleError of the contentAnalyzer module instead of a
result. -/
theorem content_analyzer_min_length (text : String)
    (hne : jsTrim text ≠ "") (hshort : text.length < 100) :
    contentAnalyzerExecute text =
      Except.error
        { moduleType := ModuleType.contentAnalyzer
          message := "콘텐츠 분석 실패: 텍스트가 너무 짧습니다. 최소 100자 이상이어야 합니다."
          originalError := some "텍스트가 너무 짧습니다. 최소 100자 이상이어야 합니다." } := by
  have htext : ¬(text = "") := by
    intro h
    exact hne (by rw [h]; rfl)
  have hlen : ¬((jsTrim text).length = 0) := by
    intro h
    exact hne (string_length_zero_eq_empty _ h)
  simp [contentAnalyzerExecute, contentAnalyzerValidate, htext, hlen, hshort]

/-- C9 witness: a concrete 28-character text is rejected with the
minimum-length ModuleError. -/
theorem content_analyzer_min_length_witness :
    contentAnalyzerExecute "Plasma is a state of matter." =
      Except.error
        { moduleType := ModuleType.contentAnalyzer
          message := "콘텐츠 분석 실패: 텍스트가 너무 짧습니다. 최소 100자 이상이어야 합니다."
          originalError := some "텍스트가 너무 짧습니다. 최소 100자 이상이어야 합니다." } :=
  content_analyzer_min_length "Plasma is a state of matter." (by decide) (by decide)

/-- A successful stage outcome passes its data through the orchestrator
guard. -/
theorem runStage_ok {α : Type} (mt : ModuleType) (a : α) (msg : String) :
    runStage (okOutcome mt a) msg = Except.ok a := rfl

/-- C8: whenever the stage phase fails with any error, execute sets the job
status to failed, never invokes packaging, and rethrows that same error to
the caller; moreover a ModuleError thrown by the first stage is exactly the
error the phase fails with. -/
theorem stage_failure_aborts (env : OrchestratorEnv) (cfg : OrchestratorConfig)
    (input : ContentIntakeInput) (jobId : String) (e : ThrownError)
    (h : stagesPhase env cfg input = Except.error e) :
    (orchestratorExecute env cfg input jobId).finalStatus = JobStatus.failed ∧
    (orchestratorExecute env cfg input jobId).packagingInvoked = false ∧
    (orchestratorExecute env cfg input jobId).outcome = Except.error e ∧
    (∀ e2 : ModuleError, env.contentIntake input = StageOutcome.threw e2 →
        stagesPhase env cfg input = Except.error (ThrownError.moduleThrow e2)) := by
  refine ⟨?_, ?_, ?_, ?_⟩
  · simp [orchestratorExecute, h]
  · simp [orchestratorExecute, h]
  · simp [orchestratorExecute, h]
  · intro e2 h2
    have hr : runStage (env.contentIntake input) "콘텐츠 인입 실패" =
        Except.error (ThrownError.moduleThrow e2) := by
      rw [h2]; rfl
    unfold stagesPhase
    rw [hr]
    rfl

/-- C8 witness: with an intake module that throws a concrete ModuleError the
job fails, packaging is skipped, and the ModuleError reaches the caller. -/
theorem stage_failure_aborts_witness :
    (orchestratorExecute envIntakeThrowC cfgC inputC "job1").finalStatus = JobStatus.failed ∧
    (orchestratorExecute envIntakeThrowC cfgC inputC "job1").packagingInvoked = false ∧
    (orchestratorExecute envIntakeThrowC cfgC inputC "job1").outcome =
      Except.error (ThrownError.moduleThrow intakeErrC) := by
  have h := stage_failure_aborts envIntakeThrowC cfgC inputC "job1"
    (ThrownError.moduleThrow intakeErrC) (by rfl)
  exact ⟨h.1, h.2.1, h.2.2.1⟩

/-- C7 counterexample: on a reject verdict the pipeline aborts with a plain
generic Error (the only non-ModuleError kind the sources define), carrying a
message, exactly the same error kind a generic stage failure produces; no
distinct QualityRejected error kind exists anywhere in the sources. -/
theorem quality_reject_error_kind_counterexample :
    (orchestratorExecute envRejectC cfgC inputC "job1").outcome =
      Except.error (ThrownError.plain "품질 검토 실패: 점수가 너무 낮습니다 (50/100)") ∧
    (orchestratorExecute envTTSFailC cfgC inputC "job1").outcome =
      Except.error (ThrownError.plain "TTS 변환 실패") := by
  exact ⟨rfl, rfl⟩

/-- C7 amended: when the quality gate runs after four successful stages, a
revise verdict is non-fatal and the pipeline continues into the TTS-onward
stages, while a reject verdict aborts the run with a plain generic Error
carrying the score (not a distinct QualityRejected error kind), the job
status failed and no packaging. -/
theorem quality_gate_revise_continues_reject_aborts
    (env : OrchestratorEnv) (cfg : OrchestratorConfig) (input : ContentIntakeInput)
    (jobId : String) (intakeOut : ContentIntakeOutput) (analysisOut : ContentAnalyzerOutput)
    (planOut : VideoPlan) (scriptOut : ScriptGeneratorOutput) (reviewOut : QualityReviewOutput)
    (hq : cfg.qualityCheckEnabled = true)
    (hI : env.contentIntake input = okOutcome ModuleType.contentIntake intakeOut)
    (hA : env.contentAnalyzer { text := intakeOut.cleanedText } =
        okOutcome ModuleType.contentAnalyzer analysisOut)
    (hP : env.planner { contentAnalysis := analysisOut, originalText := intakeOut.cleanedText, targetLength := cfg.targetVideoLength } = okOutcome ModuleType.planner planOut)
    (hS : env.scriptGenerator { originalText := intakeOut.cleanedText, plan := planOut, contentAnalysis := analysisOut } = okOutcome ModuleType.scriptGenerator scriptOut)
    (hQ : env.qualityReview { originalText := intakeOut.cleanedText, generatedScript := scriptOut, contentAnalysis := analysisOut } = okOutcome ModuleType.qualityReview reviewOut) :
    (reviewOut.recommendation = Recommendation.revise →
        stagesPhase env cfg input = ttsOnward env intakeOut analysisOut scriptOut) ∧
    (reviewOut.recommendation = Recommendation.reject →
        (orchestratorExecute env cfg input jobId).outcome =
          Except.error (ThrownError.plain
            ("품질 검토 실패: 점수가 너무 낮습니다 (" ++ toString reviewOut.score ++ "/100)")) ∧
        (orchestratorExecute env cfg input jobId).finalStatus = JobStatus.failed ∧
        (orchestratorExecute env cfg input jobId).packagingInvoked = false) := by
  have hphase : stagesPhase env cfg input =
      match qualityGateCheck reviewOut with
      | Except.error e => Except.error e
      | Except.ok _ => ttsOnward env intakeOut analysisOut scriptOut := by
    unfold stagesPhase
    rw [hI, runStage_ok]
    simp only [bind, Except.bind]
    rw [hA, runStage_ok]
    simp only [bind, Except.bind]
    rw [hP, runStage_ok]
    simp only [bind, Except.bind]
    rw [hS, runStage_ok]
    simp only [bind, Except.bind]
    rw [hq]
    simp only [if_true]
    rw [hQ, runStage_ok]
  constructor
  · intro hrev
    rw [hphase]
    have hgate : qualityGateCheck reviewOut = Except.ok () := by
      unfold qualityGateCheck
      rw [hrev]
      rfl
    rw [hgate]
  · intro hrej
    have hgate : qualityGateCheck reviewOut =
        Except.error (ThrownError.plain
          ("품질 검토 실패: 점수가 너무 낮습니다 (" ++ toString reviewOut.score ++ "/100)")) := by
      unfold qualityGateCheck
      rw [hrej]
      rfl
    have herr : stagesPhase env cfg input =
        Except.error (ThrownError.plain
          ("품질 검토 실패: 점수가 너무 낮습니다 (" ++ toString reviewOut.score ++ "/100)")) := by
      rw [hphase, hgate]
    refine ⟨?_, ?_, ?_⟩ <;> simp [orchestratorExecute, herr]

/-- C7 amended witness: with concrete stage outputs and a reject verdict of
score 50 the run aborts with the plain Error carrying the score, failed
status and no packaging. -/
theorem quality_gate_reject_witness :
    (orchestratorExecute envRejectC cfgC inputC "job1").outcome =
      Except.error (ThrownError.plain
        ("품질 검토 실패: 점수가 너무 낮습니다 (" ++ toString (50 : ℤ) ++ "/100)")) ∧
    (orchestratorExecute envRejectC cfgC inputC "job1").finalStatus = JobStatus.failed ∧
    (orchestratorExecute envRejectC cfgC inputC "job1").packagingInvoked = false := by
  have h := quality_gate_revise_continues_reject_aborts envRejectC cfgC inputC "job1"
    intakeOutC analysisOutC planOutC scriptC reviewRejectC rfl rfl rfl rfl rfl rfl
  exact h.2 rfl

/-- The whitespace split always yields at least one piece. -/
theorem jsSplitWsAux_length_pos (cs : List Char) : ∀ (cur : List Char) (w : Bool),
    1 ≤ (jsSplitWsAux cs cur w).length := by
  induction cs with
  | nil => intro cur w; simp [jsSplitWsAux]
  | cons c cs ih =>
    intro cur w
    simp only [jsSplitWsAux]
    split_ifs with h1 h2
    · exact ih cur true
    · simp only [List.length_cons]
      omega
    · exact ih (c :: cur) false

/-- A JS word count is at least one. -/
theorem jsWordCount_pos (s : String) : 1 ≤ jsWordCount s := by
  unfold jsWordCount jsSplitWhitespace
  rw [List.length_map]
  exact jsSplitWsAux_length_pos _ _ _

/-- Every synthesized line has positive estimated duration. -/
theorem ttsDuration_pos (text : String) : 0 < ttsDuration text := by
  unfold ttsDuration
  have h := jsWordCount_pos text
  have h2 : (1 : ℚ) ≤ (jsWordCount text : ℚ) := by exact_mod_cast h
  have h3 : (0 : ℚ) < (jsWordCount text : ℚ) := by linarith
  exact mul_pos (div_pos h3 (by norm_num)) (by norm_num)

/-- The line loop of the TTS module produces gapless consecutive segments
from its starting time to its final accumulator. -/
theorem ttsLines_consecutive (env : TTSEnv) (ls : List ScriptLine) : ∀ (t : ℚ) (k : Nat),
    SegsConsecutive t (ttsLines env ls t k).1 (ttsLines env ls t k).2.2 := by
  induction ls with
  | nil => intro t k; simp [ttsLines, SegsConsecutive]
  | cons l ls ih =>
    intro t k
    simp only [ttsLines]
    exact ⟨rfl, rfl, ttsDuration_pos l.text, ih (t + ttsDuration l.text) (k + 1)⟩

/-- Consecutive segment runs compose over append. -/
theorem SegsConsecutive_append (l1 : List AudioSegment) : ∀ (t t1 t2 : ℚ) (l2 : List AudioSegment),
    SegsConsecutive t l1 t1 → SegsConsecutive t1 l2 t2 → SegsConsecutive t (l1 ++ l2) t2 := by
  induction l1 with
  | nil =>
    intro t t1 t2 l2 h1 h2
    simp only [SegsConsecutive] at h1
    rw [List.nil_append, ← h1]
    exact h2
  | cons a l ih =>
    intro t t1 t2 l2 h1 h2
    simp only [SegsConsecutive] at h1
    obtain ⟨ha, hb, hc, hd⟩ := h1
    simp only [List.cons_append, SegsConsecutive]
    exact ⟨ha, hb, hc, ih _ _ _ _ hd h2⟩

/-- The section loop of the TTS module produces gapless consecutive segments
across section boundaries. -/
theorem ttsSections_consecutive (env : TTSEnv) (ss : List ScriptSection) : ∀ (t : ℚ) (k : Nat),
    SegsConsecutive t (ttsSections env ss t k).1 (ttsSections env ss t k).2.2 := by
  induction ss with
  | nil => intro t k; simp [ttsSections, SegsConsecutive]
  | cons s ss ih =>
    intro t k
    simp only [ttsSections]
    exact SegsConsecutive_append _ _ _ _ _ (ttsLines_consecutive env s.lines t k) (ih _ _)

/-- In a consecutive run the first segment starts at the start of the run. -/
theorem SegsConsecutive_get_start_zero (segs : List AudioSegment) (t t2 : ℚ)
    (h : SegsConsecutive t segs t2) (h0 : 0 < segs.length) :
    (segs.get ⟨0, h0⟩).startTime = t := by
  cases segs with
  | nil => simp at h0
  | cons a l =>
    simp only [SegsConsecutive] at h
    exact h.1

/-- In a consecutive run each segment ends where the next starts, and end
times strictly increase. -/
theorem SegsConsecutive_adjacent (segs : List AudioSegment) : ∀ (t t2 : ℚ),
    SegsConsecutive t segs t2 → ∀ (i : Nat) (hi : i + 1 < segs.length),
    (segs.get ⟨i, Nat.lt_of_succ_lt hi⟩).endTime = (segs.get ⟨i + 1, hi⟩).startTime ∧
    (segs.get ⟨i, Nat.lt_of_succ_lt hi⟩).endTime < (segs.get ⟨i + 1, hi⟩).endTime := by
  induction segs with
  | nil => intro t t2 h i hi; simp at hi
  | cons a l ih =>
    intro t t2 h i hi
    simp only [SegsConsecutive] at h
    obtain ⟨ha, hb, hc, hd⟩ := h
    cases i with
    | zero =>
      cases l with
      | nil => simp at hi
      | cons b l2 =>
        simp only [SegsConsecutive] at hd
        obtain ⟨h1, h2, h3, h4⟩ := hd
        refine ⟨?_, ?_⟩
        · simpa [List.get] using h1.symm
        · simp only [List.get]
          rw [h2]
          linarith
    | succ j =>
      have hj : j + 1 < l.length := by simpa using hi
      have hres := ih a.endTime t2 hd j hj
      simpa [List.get] using hres

/-- C1: the audio segments produced by a successful TTS run satisfy the
timeline invariant, for any script: the first segment starts at 0, each
segment ends exactly where the next starts (no gap, no overlap), and end
times strictly increase. -/
theorem tts_timeline_invariant (env : TTSEnv) (input : TTSInput)
    (res : ModuleResult TTSOutput) (out : TTSOutput)
    (hexec : ttsExecute env input = Except.ok res) (hdata : res.data = some out) :
    (∀ h0 : 0 < out.audioSegments.length,
        (out.audioSegments.get ⟨0, h0⟩).startTime = 0) ∧
    (∀ (i : Nat) (hi : i + 1 < out.audioSegments.length),
        (out.audioSegments.get ⟨i, Nat.lt_of_succ_lt hi⟩).endTime
          = (out.audioSegments.get ⟨i + 1, hi⟩).startTime ∧
        (out.audioSegments.get ⟨i, Nat.lt_of_succ_lt hi⟩).endTime
          < (out.audioSegments.get ⟨i + 1, hi⟩).endTime) := by
  unfold ttsExecute at hexec
  split_ifs at hexec with hlen
  have hres : res =
      { success := true, data := some (ttsRun env input.script), moduleType := ModuleType.tts } := by
    have h := hexec
    simp only [Except.ok.injEq] at h
    exact h.symm
  rw [hres] at hdata
  simp only [Option.some.injEq] at hdata
  have hseg : out.audioSegments = (ttsSections env input.script.sections 0 0).1 := by
    rw [← hdata]
    rfl
  have hchain : SegsConsecutive 0 out.audioSegments
      (ttsSections env input.script.sections 0 0).2.2 := by
    rw [hseg]
    exact ttsSections_consecutive env _ 0 0
  constructor
  · intro h0
    exact SegsConsecutive_get_start_zero _ _ _ hchain h0
  · intro i hi
    exact SegsConsecutive_adjacent _ _ _ hchain i hi

/-- C1 witness: on the concrete two-line script the first segment starts at 0
and ends exactly where the second starts. -/
theorem tts_timeline_invariant_witness :
    ((ttsRun ttsEnvC scriptC).audioSegments.get ⟨0, by decide⟩).startTime = 0 ∧
    ((ttsRun ttsEnvC scriptC).audioSegments.get
        ⟨0, Nat.lt_of_succ_lt (by decide)⟩).endTime
      = ((ttsRun ttsEnvC scriptC).audioSegments.get ⟨1, by decide⟩).startTime := by
  have h := tts_timeline_invariant ttsEnvC ttsInputC
    { success := true, data := some (ttsRun ttsEnvC scriptC), moduleType := ModuleType.tts }
    (ttsRun ttsEnvC scriptC) rfl rfl
  exact ⟨h.1 (by decide), (h.2 0 (by decide)).1⟩

/-- C6 counterexample: the TTS stage does modify the script object produced
by script generation: on a concrete script the scriptWithTimestamps it
returns, which in the source is the same object mutated in place, differs
from the input script (the line startTime fields change from none to values). -/
theorem tts_mutates_script_counterexample :
    (ttsRun ttsEnvC scriptC).scriptWithTimestamps ≠ scriptC := by
  decide

/-- Updating the time fields of a line commutes with clearing them. -/
theorem ttsLines_clearTimes (env : TTSEnv) (ls : List ScriptLine) : ∀ (t : ℚ) (k : Nat),
    (ttsLines env ls t k).2.1.map scriptLineClearTimes = ls.map scriptLineClearTimes := by
  induction ls with
  | nil => intro t k; rfl
  | cons l ls ih =>
    intro t k
    simp only [ttsLines, List.map_cons]
    exact congrArg _ (ih (t + ttsDuration l.text) (k + 1))

/-- The TTS section loop changes only line time fields. -/
theorem ttsSections_clearTimes (env : TTSEnv) (ss : List ScriptSection) : ∀ (t : ℚ) (k : Nat),
    (ttsSections env ss t k).2.1.map sectionClearTimes = ss.map sectionClearTimes := by
  induction ss with
  | nil => intro t k; rfl
  | cons s ss ih =>
    intro t k
    simp only [ttsSections, List.map_cons]
    rw [ih]
    refine congrArg (fun x => x :: ss.map sectionClearTimes) ?_
    unfold sectionClearTimes
    simp only [ttsLines_clearTimes]

/-- Every line written back by the TTS line loop has both time fields set. -/
theorem ttsLines_times_some (env : TTSEnv) (ls : List ScriptLine) : ∀ (t : ℚ) (k : Nat),
    ∀ l ∈ (ttsLines env ls t k).2.1, l.startTime.isSome ∧ l.endTime.isSome := by
  induction ls with
  | nil => intro t k l hl; simp [ttsLines] at hl
  | cons a ls ih =>
    intro t k l hl
    simp only [ttsLines, List.mem_cons] at hl
    cases hl with
    | inl h => rw [h]; exact ⟨rfl, rfl⟩
    | inr h => exact ih _ _ l h

/-- Every line of every section written back by the TTS loop has both time
fields set. -/
theorem ttsSections_times_some (env : TTSEnv) (ss : List ScriptSection) : ∀ (t : ℚ) (k : Nat),
    ∀ sec ∈ (ttsSections env ss t k).2.1, ∀ l ∈ sec.lines,
      l.startTime.isSome ∧ l.endTime.isSome := by
  induction ss with
  | nil => intro t k sec hsec; simp [ttsSections] at hsec
  | cons s ss ih =>
    intro t k sec hsec l hl
    simp only [ttsSections, List.mem_cons] at hsec
    cases hsec with
    | inl h =>
      rw [h] at hl
      exact ttsLines_times_some env s.lines t k l hl
    | inr h => exact ih _ _ sec h l hl

/-- C6 amended: downstream stages leave upstream outputs unchanged except
that the TTS stage writes the startTime and endTime of each script line in place,
as the type declarations themselves document; apart from the two time fields
of the lines, the returned script is identical to the input script, and every
written-back line has both time fields filled. -/
theorem tts_mutation_scope (env : TTSEnv) (script : ScriptGeneratorOutput) :
    scriptClearTimes (ttsRun env script).scriptWithTimestamps = scriptClearTimes script ∧
    (∀ sec ∈ (ttsRun env script).scriptWithTimestamps.sections, ∀ l ∈ sec.lines,
        l.startTime.isSome ∧ l.endTime.isSome) := by
  constructor
  · unfold ttsRun scriptClearTimes
    simp only [ttsSections_clearTimes]
  · intro sec hsec l hl
    have hsec2 : sec ∈ (ttsSections env script.sections 0 0).2.1 := hsec
    exact ttsSections_times_some env script.sections 0 0 sec hsec2 l hl

/-- C6 amended witness: on the concrete script the cleared forms agree and
the first written-back line has both time fields set. -/
theorem tts_mutation_scope_witness :
    scriptClearTimes (ttsRun ttsEnvC scriptC).scriptWithTimestamps = scriptClearTimes scriptC ∧
    ((((ttsRun ttsEnvC scriptC).scriptWithTimestamps.sections.get ⟨0, by decide⟩).lines.get
        ⟨0, by decide⟩).startTime.isSome ∧
      (((ttsRun ttsEnvC scriptC).scriptWithTimestamps.sections.get ⟨0, by decide⟩).lines.get
        ⟨0, by decide⟩).endTime.isSome) := by
  have h := tts_mutation_scope ttsEnvC scriptC
  refine ⟨h.1, ?_⟩
  exact h.2 _ (List.get_mem _ _ _) _ (List.get_mem _ _ _)

/-- C2: with exactly one SlideElement for the word Plasma with box
(100,50,800,150) and exactly one matching WordTimestamp (3.2 to 3.8 seconds)
on the same slide, resolving the keyword Plasma yields exactly one OverlayCue
with that box, the window 3.2 to 3.8 shifted by the cumulative start of the slide,
and exact confidence — for every cumulative start offset. -/
theorem alignment_exactness (off : ℚ) :
    resolve { width := 1920, height := 1080 } [plasmaLine off] [plasmaElement] plasmaTimestamps =
      [{ x := 100, y := 50, width := 800, height := 150,
         start := off + 16/5, stop := off + 19/5,
         text := "Plasma", confidence := Confidence.exact }] := by
  rfl
